import Mathlib

/-!
Shallow embedding of the `rum` model layer (query builder) of this
repository: `src/rum/src/model/mod.rs`, `src/rum/src/model/column.rs`,
`src/rum/src/model/migrations/model.rs` and the `Model` derive macro in
`src/rum-macros/src/lib.rs`.

The submodules `value.rs`, `escape.rs`, `filter.rs`, `select.rs`,
`order_by.rs`, `join.rs`, `placeholders.rs`, `error.rs` and `pool.rs` are
declared in `mod.rs` but their sources are not present; the definitions
below that come from them are modelled from the spec (each such definition
says so in its doc comment) and are checked against the unit tests in
`mod.rs`, which pin the exact SQL text of the builder.

Rust panics (`unreachable!()`, `todo!()`) are modelled as `Option.none`:
a method that can hit such a path returns `Option Query`, and `none`
means the Rust code panics on that input.
-/

namespace Rum

/-- Modelled from the spec: `value.rs` is absent from the sources. A `Value`
is the tagged scalar union of spec §3 (integer, float, text, boolean,
timestamp, null, list-of-scalars); the float payload is kept opaque as a
string of digits since no claim inspects it. -/
inductive Value where
  | integer (i : Int)
  | text (s : String)
  | boolean (b : Bool)
  | timestamp (t : Int)
  | null
  | list (vs : List Value)

/-- Modelled from the spec: `error.rs` is absent from the sources. The error
taxonomy of spec §7 (QueryError, RecordNotFound, PoolNotConfigured,
Unknown); migration errors are out of scope of the claims. -/
inductive Error where
  | queryError (sql message : String)
  | recordNotFound
  | poolNotConfigured
  | unknown (message : String)
deriving Repr, DecidableEq

/-- Doubles every double-quote character of a character list. -/
def escapeChars : List Char → List Char
  | [] => []
  | ch :: cs => if ch = '\"' then ch :: ch :: escapeChars cs else ch :: escapeChars cs

/-- Modelled from the spec: `escape.rs` is absent from the sources. Spec §3:
identifiers are escaped by quote-doubling. -/
def escape (s : String) : String := ⟨escapeChars s.data⟩

/-- PostgreSQL table column, from `src/rum/src/model/column.rs`. -/
structure Column where
  table_name : String
  column_name : String
deriving Repr, DecidableEq

/-- Create a new table column, from `Column::new` in `column.rs`. -/
def Column.new (table_name column_name : String) : Column :=
  ⟨table_name, column_name⟩

/-- Renders a column, from `impl ToSql for Column` in `column.rs`:
qualified columns render as `"table"."column"`, bare ones as `"column"`. -/
def Column.to_sql (c : Column) : String :=
  if c.table_name.isEmpty then
    "\"" ++ escape c.column_name ++ "\""
  else
    "\"" ++ escape c.table_name ++ "\".\"" ++ escape c.column_name ++ "\""

/-- Column projection of a select, from `Columns` in `column.rs`. -/
structure Columns where
  columns : List Column
  table_name : Option String
deriving Repr, DecidableEq

/-- Default projection (`#[derive(Default)]` on `Columns`): no explicit
columns, no table qualifier. -/
def Columns.init : Columns := ⟨[], none⟩

/-- Renders the projection, from `impl ToSql for Columns` in `column.rs`:
`*` when empty and unqualified, `"table".*` when a table name is set,
otherwise the comma-separated column list. -/
def Columns.to_sql (cs : Columns) : String :=
  if cs.columns.isEmpty then
    match cs.table_name with
    | some t => "\"" ++ t ++ "\".*"
    | none => "*"
  else
    String.intercalate (", ") (cs.columns.map Column.to_sql)

/-- Sort direction of one ORDER BY column. Modelled from the spec:
`order_by.rs` is absent from the sources. -/
inductive OrderDirection where
  | asc
  | desc
deriving Repr, DecidableEq

/-- One ORDER BY entry. Modelled from the spec: `order_by.rs` is absent
from the sources; spec §2 calls `OrderBy` a list that composes by
concatenation across chained calls. -/
structure OrderColumn where
  column : Column
  direction : OrderDirection
deriving Repr, DecidableEq

/-- Renders one ORDER BY entry; the expected text `"users"."id" ASC` is
pinned by `test_first_one` in `mod.rs`. -/
def OrderColumn.to_sql (o : OrderColumn) : String :=
  o.column.to_sql ++ (match o.direction with | .asc => " ASC" | .desc => " DESC")

/-- Modelled from the spec: `OrderBy::asc(column)` used by
`Query::first_many` in `mod.rs` builds a one-element ascending list. -/
def OrderBy.asc (c : Column) : List OrderColumn := [⟨c, .asc⟩]

/-- One INNER JOIN fragment. Modelled from the spec: `join.rs` is absent
from the sources; spec §2 says a join compiles to `INNER JOIN … ON …`
between two fully-qualified columns. -/
structure Join where
  table_name : String
  lhs : Column
  rhs : Column
deriving Repr, DecidableEq

/-- Renders a join fragment; the exact text is pinned by `test_join` in
`mod.rs`. -/
def Join.to_sql (j : Join) : String :=
  "INNER JOIN \"" ++ escape j.table_name ++ "\" ON " ++ j.lhs.to_sql ++ " = " ++ j.rhs.to_sql

/-- Predicate comparator. Modelled from the spec: `filter.rs` is absent
from the sources; spec §4.1 has equality/membership filters and negated
(`<>`) predicates. -/
inductive Comparator where
  | eq
  | ne
deriving Repr, DecidableEq

/-- One WHERE predicate. Modelled from the spec (`filter.rs` absent):
spec §2 describes the where clause as an ordered list of
`(column, comparator, value)` predicates combined by AND, with
per-predicate negation; `or_not` combines at the predicate level with OR,
recorded here by `orCombined` (the separator written before the
predicate). -/
structure Predicate where
  column : Column
  comparator : Comparator
  orCombined : Bool
  value : Value

/-- True when a value is the list variant (rendered through `= ANY($n)`,
spec §4.1). -/
def Value.isList : Value → Bool
  | .list _ => true
  | _ => false

/-- A token of rendered SQL: literal text or a positional placeholder
marker `$n`. The WHERE renderer is written over tokens so that the
placeholder bookkeeping of spec §3 is visible in the embedding. -/
inductive SqlTok where
  | lit (s : String)
  | marker (n : Nat)

/-- Renders one token; a marker `n` renders as `$n`. -/
def SqlTok.render : SqlTok → String
  | .lit s => s
  | .marker n => "$" ++ toString n

/-- Renders a token list by concatenation. -/
def renderToks (ts : List SqlTok) : String :=
  String.join (ts.map SqlTok.render)

/-- Tokens of one predicate holding marker number `n`. Modelled from the
spec §4.1: a scalar value compiles to `column = $n` (or `<>` when
negated), a list value to `column = ANY($n)`; pinned by `test_filter` in
`mod.rs`. -/
def Predicate.toTokens (p : Predicate) (n : Nat) : List SqlTok :=
  if p.value.isList then
    [.lit (p.column.to_sql ++ (match p.comparator with | .eq => " = ANY(" | .ne => " <> ALL(")),
     .marker n, .lit ")"]
  else
    [.lit (p.column.to_sql ++ (match p.comparator with | .eq => " = " | .ne => " <> ")),
     .marker n]

/-- Tokens of the predicates after the first one, each preceded by its
separator (` AND ` or ` OR `), numbering markers from `n`. -/
def predsToksAux : List Predicate → Nat → List SqlTok
  | [], _ => []
  | p :: ps, n =>
    .lit (if p.orCombined then " OR " else " AND ") :: (p.toTokens n ++ predsToksAux ps (n + 1))

/-- Tokens of a whole where clause, numbering markers from `n`. Spec §4.1:
placeholder numbers are assigned left to right at render time. -/
def whereClauseToks : List Predicate → Nat → List SqlTok
  | [], _ => []
  | p :: ps, n => p.toTokens n ++ predsToksAux ps (n + 1)

/-- Extracts the marker numbers of a token list in left-to-right order. -/
def markersOf : List SqlTok → List Nat
  | [] => []
  | .lit _ :: ts => markersOf ts
  | .marker n :: ts => n :: markersOf ts

/-- The `Select` builder, from spec §3 (`select.rs` is absent from the
sources): table name and primary key fixed at construction, then
projection, joins, where clause, order-by list, limit and offset. -/
structure Select where
  table_name : String
  primary_key : String
  columns : Columns
  joins : List Join
  where_clause : List Predicate
  order_by : List OrderColumn
  limit : Option Nat
  offset : Option Nat

/-- Constructs a fresh select, from `Select::new(table_name, primary_key)`
used by `Query::select` in `mod.rs`. -/
def Select.new (table_name primary_key : String) : Select :=
  ⟨table_name, primary_key, Columns.init, [], [], [], none, none⟩

/-- The ordered bound values of a select. Modelled from the spec
(`placeholders.rs` absent): spec §2 calls `Placeholders` the
order-preserving list of bound values, one per predicate, in insertion
order of the compiled clause. -/
def Select.placeholders (s : Select) : List Value :=
  s.where_clause.map Predicate.value

/-- Builds the predicate appended by a filter pair `(column, value)`:
the column is qualified with the select's table name, as pinned by
`test_filter` (`"users"."email" = $1`). -/
def Select.mkFilter (s : Select) (comparator : Comparator) (orCombined : Bool)
    (f : String × Value) : Predicate :=
  ⟨Column.new s.table_name f.1, comparator, orCombined, f.2⟩

/-- Modelled from the spec: `Select::filter_and` (absent `select.rs`)
appends AND-combined equality predicates, one per pair (spec §4.1). -/
def Select.filter_and (s : Select) (fs : List (String × Value)) : Select :=
  { s with where_clause := s.where_clause ++ fs.map (s.mkFilter .eq false) }

/-- Modelled from the spec: `Select::filter_not` appends negated (`<>`)
AND-combined predicates (spec §4.1). -/
def Select.filter_not (s : Select) (fs : List (String × Value)) : Select :=
  { s with where_clause := s.where_clause ++ fs.map (s.mkFilter .ne false) }

/-- Modelled from the spec: `Select::filter_or_not` appends negated
predicates OR-combined at the predicate level (spec §4.1). -/
def Select.filter_or_not (s : Select) (fs : List (String × Value)) : Select :=
  { s with where_clause := s.where_clause ++ fs.map (s.mkFilter .ne true) }

/-- Modelled from the spec: `Select::limit(n)` (absent `select.rs`) sets
the LIMIT (spec §4.1). -/
def Select.setLimit (s : Select) (n : Nat) : Select := { s with limit := some n }

/-- Modelled from the spec: `Select::offset(n)` sets the OFFSET
(spec §4.1). -/
def Select.setOffset (s : Select) (n : Nat) : Select := { s with offset := some n }

/-- Modelled from the spec: `Select::order_by(o)` replaces the order-by
list; concatenation across chained calls happens in `Query::order`
(`mod.rs` line 268 does the concatenation explicitly). -/
def Select.setOrderBy (s : Select) (o : List OrderColumn) : Select := { s with order_by := o }

/-- Modelled from the spec: `Select::join(j)` appends the join fragment
and qualifies the projection with the select's own table, as pinned by
`test_join` (`SELECT "users".* FROM "users" INNER JOIN …`). -/
def Select.addJoin (s : Select) (j : Join) : Select :=
  { s with joins := s.joins ++ [j],
           columns := { s.columns with table_name := some s.table_name } }

/-- Joined-list separator used by the renderers below. -/
def sepJoin (sep : String) : List String → String
  | [] => ""
  | [x] => x
  | x :: y :: xs => x ++ sep ++ sepJoin sep (y :: xs)

/-- Rendered join section of a select (empty or ` INNER JOIN …` per
fragment). -/
def Select.joinsSql (s : Select) : String :=
  String.join (s.joins.map (fun j => " " ++ j.to_sql))

/-- Rendered WHERE section of a select, markers numbered from 1. -/
def Select.whereSql (s : Select) : String :=
  match s.where_clause with
  | [] => ""
  | _ :: _ => " WHERE " ++ renderToks (whereClauseToks s.where_clause 1)

/-- Rendered ORDER BY items joined by commas. -/
def orderItemsSql (os : List OrderColumn) : String :=
  sepJoin (", ") (os.map OrderColumn.to_sql)

/-- Rendered ORDER BY section of a select. -/
def Select.orderSql (s : Select) : String :=
  match s.order_by with
  | [] => ""
  | _ :: _ => " ORDER BY " ++ orderItemsSql s.order_by

/-- Rendered LIMIT section of a select. -/
def Select.limitSql (s : Select) : String :=
  match s.limit with
  | some n => " LIMIT " ++ toString n
  | none => ""

/-- Rendered OFFSET section of a select. -/
def Select.offsetSql (s : Select) : String :=
  match s.offset with
  | some n => " OFFSET " ++ toString n
  | none => ""

/-- Renders the whole select. Modelled from the spec §4.1 compilation
order `SELECT columns FROM table [JOIN] [WHERE] [ORDER BY] [LIMIT]
[OFFSET]`; every concrete string below is checked against the unit tests
of `mod.rs`. -/
def Select.to_sql (s : Select) : String :=
  "SELECT " ++ s.columns.to_sql ++ " FROM \"" ++ escape s.table_name ++ "\"" ++
    s.joinsSql ++ s.whereSql ++ s.orderSql ++ s.limitSql ++ s.offsetSql

/-- The `Query<T>` tagged union from `mod.rs` lines 101-106: `Select`,
`Update` (unimplemented) and `Raw`. The row-type parameter is phantom for
SQL generation and is dropped. -/
inductive Query where
  | select (s : Select)
  | update
  | raw (sql : String)

/-- Renders a query, from `impl ToSql for Query` in `mod.rs`; the `Update`
arm is `todo!()` (a panic), modelled as `none`. -/
def Query.to_sql : Query → Option String
  | .select s => some s.to_sql
  | .raw q => some q
  | .update => none

/-- From `Query::select(table_name)` in `mod.rs`: a fresh select over the
table with primary key hard-coded to `"id"`. -/
def Query.selectTable (table_name : String) : Query :=
  .select (Select.new table_name "id")

/-- From `Query::take_one` in `mod.rs` lines 149-156: sets LIMIT 1 on a
select; any other variant hits `unreachable!()`, modelled as `none`. -/
def Query.take_one : Query → Option Query
  | .select s => some (.select (s.setLimit 1))
  | _ => none

/-- From `Query::take_many(n)` in `mod.rs` lines 168-175: sets LIMIT n on
a select; any other variant hits `unreachable!()`, modelled as `none`. -/
def Query.take_many : Query → Nat → Option Query
  | .select s, n => some (.select (s.setLimit n))
  | _, _ => none

/-- From `Query::first_many(n)` in `mod.rs` lines 186-203: on a select,
defaults the order to the primary key ascending when none is set, then
sets LIMIT n; any other variant hits `unreachable!()` (`none`). -/
def Query.first_many : Query → Nat → Option Query
  | .select s, n =>
    let order_by :=
      if s.order_by.isEmpty then OrderBy.asc (Column.new s.table_name s.primary_key)
      else s.order_by
    some (.select ((s.setLimit n).setOrderBy order_by))
  | _, _ => none

/-- From `Query::first_one` in `mod.rs` lines 177-184: `first_many 1` on a
select, `unreachable!()` (`none`) otherwise. -/
def Query.first_one (q : Query) : Option Query :=
  match q with
  | .select _ => q.first_many 1
  | _ => none

/-- From `Query::filter` in `mod.rs` lines 205-212: appends AND filters on
a select and silently returns any other variant unchanged. -/
def Query.filter (q : Query) (fs : List (String × Value)) : Query :=
  match q with
  | .select s => .select (s.filter_and fs)
  | _ => q

/-- From `Query::not` in `mod.rs` lines 222-229: appends negated filters
on a select and silently returns any other variant unchanged. -/
def Query.not (q : Query) (fs : List (String × Value)) : Query :=
  match q with
  | .select s => .select (s.filter_not fs)
  | _ => q

/-- From `Query::or_not` in `mod.rs` lines 231-238: appends OR-combined
negated filters on a select and silently returns any other variant
unchanged. -/
def Query.or_not (q : Query) (fs : List (String × Value)) : Query :=
  match q with
  | .select s => .select (s.filter_or_not fs)
  | _ => q

/-- From `Query::find_by` in `mod.rs` lines 240-252: clears the where
clause when the variant is a select, then filters by the single pair;
non-select variants pass through `filter` unchanged. -/
def Query.find_by (q : Query) (column : String) (value : Value) : Query :=
  let q' : Query :=
    match q with
    | .select s => .select { s with where_clause := [] }
    | _ => q
  q'.filter [(column, value)]

/-- From `Query::limit` in `mod.rs` lines 254-256: delegates to
`take_many`, so a non-select variant hits `unreachable!()` (`none`). -/
def Query.limit (q : Query) (n : Nat) : Option Query :=
  q.take_many n

/-- From `Query::offset` in `mod.rs` lines 258-264: sets the offset on a
select and silently returns any other variant unchanged. -/
def Query.offset : Query → Nat → Query
  | .select s, n => .select (s.setOffset n)
  | q, _ => q

/-- From `Query::order` in `mod.rs` lines 266-273: concatenates to the
existing order-by list on a select and silently returns any other variant
unchanged. -/
def Query.order (q : Query) (o : List OrderColumn) : Query :=
  match q with
  | .select s => .select { s with order_by := s.order_by ++ o }
  | _ => q

/-- From `Query::join` in `mod.rs` lines 275-280: appends the statically
derived join fragment on a select and silently returns any other variant
unchanged. -/
def Query.join (q : Query) (j : Join) : Query :=
  match q with
  | .select s => .select (s.addJoin j)
  | _ => q

/-- Relationship kind between two record types, from `AssociationType`
used in `mod.rs` tests and generated by the derive macro. -/
inductive AssociationType where
  | belongsTo
  | hasMany
deriving Repr, DecidableEq

/-- Static facts of one record type used by join inference: table name,
primary key name (default `"id"`), foreign key name (default
`"<singular>_id"`, computed by the external pluralizer in
`Model::foreign_key`; taken here as a given field). -/
structure ModelInfo where
  table_name : String
  primary_key : String
  foreign_key : String
deriving Repr, DecidableEq

/-- Modelled from the spec: `join.rs` is absent from the sources. The join
fragment of `F::join()` for `F: Association<T>` with the declared kind,
pinned by `test_join` in `mod.rs`: when `F` belongs to `T` the ON clause
is `T.pk = F.(T's foreign key)`; when `F` has many `T` it is
`T.(F's foreign key) = F.pk`; the joined table is always `F`'s. -/
def associationJoin (target assoc : ModelInfo) : AssociationType → Join
  | .belongsTo =>
    ⟨assoc.table_name,
     Column.new target.table_name target.primary_key,
     Column.new assoc.table_name target.foreign_key⟩
  | .hasMany =>
    ⟨assoc.table_name,
     Column.new target.table_name assoc.foreign_key,
     Column.new assoc.table_name assoc.primary_key⟩

/-- From `Model::all` in `mod.rs`: `Query::select(Self::table_name())`. -/
def Model.all (m : ModelInfo) : Query :=
  Query.selectTable m.table_name

/-- From `Model::find_by` in `mod.rs` lines 398-402:
`Query::select(table).find_by(column, value).take_one()`. -/
def Model.find_by (m : ModelInfo) (column : String) (value : Value) : Option Query :=
  ((Model.all m).find_by column value).take_one

/-- Opaque handle standing for a configured connection pool; `pool.rs` is
absent from the sources and no claim inspects the pool's internals. -/
structure Pool where
  handle : Nat
deriving Repr, DecidableEq

/-- From `Model::configure_pool` in `mod.rs` lines 363-368, which wraps
`OnceCell::set` on the process-wide `POOL` cell: the cell's documented
contract is that `set` stores the value when empty and returns it as an
error (leaving the stored value untouched) when already full. The global
cell is made explicit as an `Option Pool` state threaded through. -/
def configure_pool (state : Option Pool) (pool : Pool) : Except Error Unit × Option Pool :=
  match state with
  | none => (.ok (), some pool)
  | some p => (.error (.unknown "pool already configured"), some p)

/-- From `Query::execute` in `mod.rs` lines 339-346: maps every returned
driver row through `from_row`. Driver rows are abstract (`ρ`), the
network exchange is out of the embedding. -/
def executeRows {ρ α : Type} (from_row : ρ → α) (rows : List ρ) : List α :=
  rows.map from_row

/-- From `Query::fetch` in `mod.rs` lines 315-320: takes the first mapped
row of `execute`, or fails with `RecordNotFound` when there is none. -/
def fetchResult {ρ α : Type} (from_row : ρ → α) (rows : List ρ) : Except Error α :=
  match (executeRows from_row rows).head? with
  | some r => .ok r
  | none => .error .recordNotFound

/-- From the `Model` derive macro in `src/rum-macros/src/lib.rs` lines
35-41: `column_names()` is generated by mapping EVERY struct field to its
name, with no filtering. -/
def deriveColumnNames (fields : List String) : List String :=
  fields.map (fun f => f)

/-- From the `Model` derive macro in `src/rum-macros/src/lib.rs` lines
43-53: `values()` is generated from the fields whose identifier is not
`id`, in declaration order, each mapped through `to_value`. -/
def deriveValues (fields : List (String × Value)) : List Value :=
  (fields.filter (fun f => f.1 != "id")).map Prod.snd

/-- Hand-written `Migration` record from
`src/rum/src/model/migrations/model.rs`. -/
structure Migration where
  id : Option Int
  version : Int
  name : String
  applied_at : Option Int

/-- From `Migration::values` in `migrations/model.rs` lines 45-51:
version, name, applied-at, in that order (no primary key). -/
def Migration.values (m : Migration) : List Value :=
  [.integer m.version, .text m.name,
   match m.applied_at with | some t => .timestamp t | none => .null]

/-- From `Migration::column_names` in `migrations/model.rs` lines 53-59:
version, name, applied_at, in that order (no primary key). -/
def Migration.column_names : List String :=
  ["version", "name", "applied_at"]

/-! Helper lemmas about the WHERE renderer and the filter fold. -/

theorem markersOf_append (a b : List SqlTok) :
    markersOf (a ++ b) = markersOf a ++ markersOf b := by
  induction a with
  | nil => rfl
  | cons t ts ih => cases t <;> simp [markersOf, ih]

theorem markersOf_toTokens (p : Predicate) (n : Nat) :
    markersOf (p.toTokens n) = [n] := by
  unfold Predicate.toTokens
  split <;> rfl

theorem markersOf_predsToksAux (ps : List Predicate) (n : Nat) :
    markersOf (predsToksAux ps n) = List.range' n ps.length := by
  induction ps generalizing n with
  | nil => rfl
  | cons p ps ih =>
    simp [predsToksAux, markersOf, markersOf_append, markersOf_toTokens, ih, List.range']

theorem markersOf_whereClauseToks (ps : List Predicate) (n : Nat) :
    markersOf (whereClauseToks ps n) = List.range' n ps.length := by
  cases ps with
  | nil => rfl
  | cons p ps =>
    simp [whereClauseToks, markersOf_append, markersOf_toTokens,
      markersOf_predsToksAux, List.range']

theorem mkFilter_filter_and (s : Select) (g : List (String × Value))
    (cmp : Comparator) (o : Bool) :
    (s.filter_and g).mkFilter cmp o = s.mkFilter cmp o := rfl

theorem filter_and_foldl_where (groups : List (List (String × Value))) (s : Select) :
    (groups.foldl Select.filter_and s).where_clause
      = s.where_clause ++ groups.flatten.map (s.mkFilter .eq false) := by
  induction groups generalizing s with
  | nil => simp
  | cons g gs ih =>
    rw [List.foldl_cons, ih, mkFilter_filter_and]
    simp [Select.filter_and, List.append_assoc]

theorem mkFilter_value (s : Select) (cmp : Comparator) (o : Bool) (f : String × Value) :
    (s.mkFilter cmp o f).value = f.2 := rfl

/-! Claim theorems. -/

/-- C1 counterexample: the claim says every chainable modifier is a silent
no-op on a `Raw` query and never panics; but `Query::limit` delegates to
`take_many`, whose non-`Select` arms are `unreachable!()` (modelled as
`none`), so `limit` on a `Raw` query panics instead of returning the query
unchanged, and so do `take_one`, `take_many`, `first_one`, `first_many`. -/
theorem c1_counterexample :
    Query.limit (Query.raw ("SELECT 1")) 5 = none
    ∧ Query.take_one (Query.raw ("SELECT 1")) = none
    ∧ Query.limit (Query.raw ("SELECT 1")) 5 ≠ some (Query.raw ("SELECT 1")) := by
  refine ⟨rfl, rfl, ?_⟩
  simp [Query.limit, Query.take_many]

/-- C1 (amended): on the non-`Select` variants (`Raw`, `Update`), the
modifiers `filter`, `not`, `or_not`, `offset`, `order`, `join` and
`find_by` are silent no-ops returning the query unchanged, while
`take_one`, `take_many`, `first_one`, `first_many` and `limit` hit
`unreachable!()` and panic (modelled as `none`); on a `Select` they all
succeed. -/
theorem c1_amended (s : Select) (sql : String) (fs : List (String × Value)) (c : String)
    (v : Value) (n : Nat) (o : List OrderColumn) (j : Join) :
    (Query.raw sql).filter fs = .raw sql
    ∧ (Query.raw sql).not fs = .raw sql
    ∧ (Query.raw sql).or_not fs = .raw sql
    ∧ (Query.raw sql).offset n = .raw sql
    ∧ (Query.raw sql).order o = .raw sql
    ∧ (Query.raw sql).join j = .raw sql
    ∧ (Query.raw sql).find_by c v = .raw sql
    ∧ Query.update.filter fs = .update
    ∧ Query.update.not fs = .update
    ∧ Query.update.or_not fs = .update
    ∧ Query.update.offset n = .update
    ∧ Query.update.order o = .update
    ∧ Query.update.join j = .update
    ∧ Query.update.find_by c v = .update
    ∧ (Query.raw sql).take_one = none
    ∧ (Query.raw sql).take_many n = none
    ∧ (Query.raw sql).first_one = none
    ∧ (Query.raw sql).first_many n = none
    ∧ (Query.raw sql).limit n = none
    ∧ Query.update.take_one = none
    ∧ Query.update.take_many n = none
    ∧ Query.update.first_one = none
    ∧ Query.update.first_many n = none
    ∧ Query.update.limit n = none
    ∧ (∃ q, (Query.select s).take_one = some q)
    ∧ (∃ q, (Query.select s).limit n = some q) :=
  ⟨rfl, rfl, rfl, rfl, rfl, rfl, rfl, rfl, rfl, rfl, rfl, rfl, rfl, rfl, rfl, rfl, rfl,
   rfl, rfl, rfl, rfl, rfl, rfl, rfl, ⟨_, rfl⟩, ⟨_, rfl⟩⟩

/-- C2: the claim says `column_names()` excludes the primary key and
aligns index-wise with `values()` for every record type, including every
type produced by the derive macro. The derive macro in
`rum-macros/src/lib.rs` generates `column_names` from ALL fields but
`values` only from the non-`id` fields, so for a derived struct with
fields `id, email` the name list is `["id", "email"]` (primary key
included, length 2) while the value list has length 1 — the generated
pair is misaligned, contradicting the spec invariant and the hand-written
`Migration` implementation (whose lists do align, as also proved here). -/
theorem c2_derive_macro_misaligned :
    deriveColumnNames ["id", "email"] = ["id", "email"]
    ∧ deriveValues [("id", .integer 1), ("email", .text "test@test.com")]
        = [.text "test@test.com"]
    ∧ (deriveColumnNames ["id", "email"]).length = 2
    ∧ (deriveValues [("id", .integer 1), ("email", .text "test@test.com")]).length = 1
    ∧ Migration.column_names.length = 3
    ∧ (Migration.values ⟨some 1, 1, "init", none⟩).length = 3
    ∧ Migration.column_names = ["version", "name", "applied_at"]
    ∧ Migration.values ⟨some 1, 7, "init", none⟩
        = [.integer 7, .text "init", .null] :=
  ⟨rfl, rfl, rfl, rfl, rfl, rfl, rfl, rfl⟩

/-- C3: for every sequence of `filter` calls on a fresh select, the
positional markers of the rendered WHERE clause (the clause of `to_sql`,
rendered through `whereClauseToks` with numbering starting at 1) are
exactly `$1 … $N` in left-to-right order, where `N` is the number of
bound placeholder values, and the bound values are exactly the filters'
values in insertion order — so the Nth bound value corresponds to the Nth
positional marker. -/
theorem c3_placeholders_match_markers (t pk : String)
    (groups : List (List (String × Value))) :
    markersOf (whereClauseToks
        (groups.foldl Select.filter_and (Select.new t pk)).where_clause 1)
      = List.range' 1 ((groups.foldl Select.filter_and (Select.new t pk)).placeholders).length
    ∧ (groups.foldl Select.filter_and (Select.new t pk)).placeholders
        = groups.flatten.map Prod.snd := by
  constructor
  · rw [markersOf_whereClauseToks]
    simp [Select.placeholders]
  · simp only [Select.placeholders, filter_and_foldl_where]
    simp [Select.new, List.map_map, Function.comp_def, Select.mkFilter]

/-- C4: on a `Select` query, `find_by(col, v)` discards every previously
added predicate together with its bound value, leaving a where clause of
exactly the single predicate `col = v` whose bound-value list is `[v]`
and whose single rendered marker is `$1`; subsequent `filter` calls then
AND-extend from that single predicate. -/
theorem c4_find_by_resets (s : Select) (c : String) (v : Value)
    (g : List (String × Value)) :
    (Query.select s).find_by c v
      = .select { s with where_clause := [s.mkFilter .eq false (c, v)] }
    ∧ ((Query.select s).find_by c v).filter g
      = .select { s with
          where_clause := s.mkFilter .eq false (c, v) :: g.map (s.mkFilter .eq false) }
    ∧ ({ s with where_clause := [s.mkFilter .eq false (c, v)] } : Select).placeholders
        = [v]
    ∧ (s.mkFilter .eq false (c, v)).column = Column.new s.table_name c
    ∧ (s.mkFilter .eq false (c, v)).value = v
    ∧ markersOf (whereClauseToks [s.mkFilter .eq false (c, v)] 1) = [1] := by
  refine ⟨?_, ?_, rfl, rfl, rfl, ?_⟩
  · simp [Query.find_by, Query.filter, Select.filter_and, Select.mkFilter]
  · simp [Query.find_by, Query.filter, Select.filter_and, Select.mkFilter]
  · rw [markersOf_whereClauseToks]
    rfl

/-- C5: `fetch` maps the returned rows through `from_row` and takes the
first: on zero rows it fails with `RecordNotFound`, and on one or more
rows it returns the first mapped row without error, regardless of how
many further rows there are. -/
theorem c5_fetch_zero_or_first {ρ α : Type} (from_row : ρ → α) (r : ρ) (rs : List ρ) :
    fetchResult from_row ([] : List ρ) = .error .recordNotFound
    ∧ fetchResult from_row (r :: rs) = .ok (from_row r) :=
  ⟨rfl, rfl⟩

/-- C6: `first_many` (and `first_one`, which is `first_many 1`) sets the
limit and, exactly when the order-by list is empty, defaults it to the
table's primary key ascending, leaving an already-set order unchanged;
on an empty order the rendered SQL contains
`ORDER BY "<table>"."<primary_key>" ASC` (the rendered primary-key column
followed by ` ASC`), as pinned concretely by `test_first_one`. -/
theorem c6_first_defaults_order (s : Select) (n : Nat)
    (h : s.table_name.isEmpty = false) :
    (Query.select s).first_many n
      = some (.select { s with
          limit := some n,
          order_by := if s.order_by.isEmpty
            then [⟨Column.new s.table_name s.primary_key, .asc⟩]
            else s.order_by })
    ∧ (Query.select s).first_one = (Query.select s).first_many 1
    ∧ (∃ a b : String,
        Select.to_sql { s with
            limit := some n,
            order_by := [⟨Column.new s.table_name s.primary_key, .asc⟩] }
          = a ++ (" ORDER BY "
              ++ ((Column.new s.table_name s.primary_key).to_sql ++ " ASC")) ++ b)
    ∧ (Column.new s.table_name s.primary_key).to_sql
        = "\"" ++ escape s.table_name ++ "\".\"" ++ escape s.primary_key ++ "\""
    ∧ Option.map Query.to_sql (Query.first_one (Query.selectTable ("users")))
        = some (some ("SELECT * FROM \"users\" ORDER BY \"users\".\"id\" ASC LIMIT 1")) := by
  refine ⟨?_, rfl, ?_, ?_, rfl⟩
  · simp [Query.first_many, Select.setLimit, Select.setOrderBy, OrderBy.asc]
  · have ho : Select.orderSql { s with
        limit := some n,
        order_by := [⟨Column.new s.table_name s.primary_key, .asc⟩] }
      = " ORDER BY " ++ ((Column.new s.table_name s.primary_key).to_sql ++ " ASC") := rfl
    refine ⟨"SELECT "
        ++ Columns.to_sql (Select.columns { s with
            limit := some n,
            order_by := [⟨Column.new s.table_name s.primary_key, .asc⟩] })
        ++ " FROM \""
        ++ escape (Select.table_name { s with
            limit := some n,
            order_by := [⟨Column.new s.table_name s.primary_key, .asc⟩] })
        ++ "\""
        ++ Select.joinsSql { s with
            limit := some n,
            order_by := [⟨Column.new s.table_name s.primary_key, .asc⟩] }
        ++ Select.whereSql { s with
            limit := some n,
            order_by := [⟨Column.new s.table_name s.primary_key, .asc⟩] },
      Select.limitSql { s with
          limit := some n,
          order_by := [⟨Column.new s.table_name s.primary_key, .asc⟩] }
        ++ Select.offsetSql { s with
            limit := some n,
            order_by := [⟨Column.new s.table_name s.primary_key, .asc⟩] }, ?_⟩
    simp only [Select.to_sql]
    rw [String.append_assoc, ho]
  · simp [Column.to_sql, Column.new, h]

/-- C6 witness: the theorem applied to the fresh `users` select with
`n = 1`, the table-name hypothesis discharged by computation. -/
theorem c6_first_defaults_order_witness :
    (Query.select (Select.new ("users") ("id"))).first_one
      = (Query.select (Select.new ("users") ("id"))).first_many 1
    ∧ (Column.new ("users") ("id")).to_sql
        = "\"" ++ escape ("users") ++ "\".\"" ++ escape ("id") ++ "\"" := by
  have h := c6_first_defaults_order (Select.new ("users") ("id")) 1 rfl
  exact ⟨h.2.1, h.2.2.2.1⟩

/-- C7: `take_many n` (and `take_one`, with `n = 1`) sets only the LIMIT
of a select: the order-by list and every other field (table name, primary
key, projection, joins, where clause, offset) are unchanged, so no
ORDER BY is introduced when none was present — pinned concretely by
`test_take_one` and `test_take_many`, whose SQL carries no ORDER BY. -/
theorem c7_take_sets_only_limit (s : Select) (n : Nat) :
    (Query.select s).take_many n = some (.select { s with limit := some n })
    ∧ (Query.select s).take_one = some (.select { s with limit := some 1 })
    ∧ ({ s with limit := some n } : Select).order_by = s.order_by
    ∧ ({ s with limit := some n } : Select).table_name = s.table_name
    ∧ ({ s with limit := some n } : Select).primary_key = s.primary_key
    ∧ ({ s with limit := some n } : Select).columns = s.columns
    ∧ ({ s with limit := some n } : Select).joins = s.joins
    ∧ ({ s with limit := some n } : Select).where_clause = s.where_clause
    ∧ ({ s with limit := some n } : Select).offset = s.offset
    ∧ Select.to_sql ((Select.new ("users") ("id")).setLimit 1)
        = "SELECT * FROM \"users\" LIMIT 1"
    ∧ Select.to_sql ((Select.new ("users") ("id")).setLimit 25)
        = "SELECT * FROM \"users\" LIMIT 25" :=
  ⟨rfl, rfl, rfl, rfl, rfl, rfl, rfl, rfl, rfl, rfl, rfl⟩

/-- C8: for record types `A` and `B` with a declared association (`B`
belongs to `A`, `A` has many `B`), the ON clauses of `A.all().join::<B>()`
and `B.all().join::<A>()` reference the same two fully-qualified columns
(the primary key on `A` and the foreign key on `B`) with sides swapped,
and only the leading (joined-into) table differs — pinned concretely by
the two SQL strings of `test_join`. -/
theorem c8_join_directionally_consistent (A B : ModelInfo) :
    (associationJoin A B .belongsTo).lhs = (associationJoin B A .hasMany).rhs
    ∧ (associationJoin A B .belongsTo).rhs = (associationJoin B A .hasMany).lhs
    ∧ (associationJoin A B .belongsTo).lhs = Column.new A.table_name A.primary_key
    ∧ (associationJoin A B .belongsTo).rhs = Column.new B.table_name A.foreign_key
    ∧ (associationJoin A B .belongsTo).table_name = B.table_name
    ∧ (associationJoin B A .hasMany).table_name = A.table_name
    ∧ (Model.all A).join (associationJoin A B .belongsTo)
        = .select ((Select.new A.table_name ("id")).addJoin (associationJoin A B .belongsTo))
    ∧ Query.to_sql ((Model.all ⟨"users", "id", "user_id"⟩).join
          (associationJoin ⟨"users", "id", "user_id"⟩ ⟨"orders", "id", "order_id"⟩ .belongsTo))
        = some ("SELECT \"users\".* FROM \"users\" INNER JOIN \"orders\" ON \"users\".\"id\" = \"orders\".\"user_id\"")
    ∧ Query.to_sql ((Model.all ⟨"orders", "id", "order_id"⟩).join
          (associationJoin ⟨"orders", "id", "order_id"⟩ ⟨"users", "id", "user_id"⟩ .hasMany))
        = some ("SELECT \"orders\".* FROM \"orders\" INNER JOIN \"users\" ON \"orders\".\"user_id\" = \"users\".\"id\"") :=
  ⟨rfl, rfl, rfl, rfl, rfl, rfl, rfl, rfl, rfl⟩

/-- C9: configuring the pool succeeds exactly once — the first call on the
empty cell stores the pool and returns `Ok`, every later call returns the
`already configured` error without replacing the stored pool, and any
sequence of further configuration attempts leaves the originally stored
pool in place. -/
theorem c9_configure_pool_at_most_once (p q : Pool) (ps : List Pool) :
    configure_pool none p = (.ok (), some p)
    ∧ configure_pool (some q) p
        = (.error (.unknown "pool already configured"), some q)
    ∧ ps.foldl (fun st r => (configure_pool st r).2) (some q) = some q := by
  refine ⟨rfl, rfl, ?_⟩
  induction ps with
  | nil => rfl
  | cons r rs ih => exact ih

/-- C10: the static constructor `Model::find_by` composes the resetting
`Query::find_by` with `take_one`, so its query always carries
`limit = some 1` and its SQL ends with `LIMIT 1` (pinned concretely by
`test_find_by`), whereas the chainable `Query::find_by` leaves the limit
field untouched. -/
theorem c10_model_find_by_limits_one (m : ModelInfo) (c : String) (v : Value) :
    Model.find_by m c v
      = some (.select { Select.new m.table_name ("id") with
          where_clause := [(Select.new m.table_name ("id")).mkFilter .eq false (c, v)],
          limit := some 1 })
    ∧ (∃ a : String,
        Select.to_sql { Select.new m.table_name ("id") with
            where_clause := [(Select.new m.table_name ("id")).mkFilter .eq false (c, v)],
            limit := some 1 }
          = a ++ " LIMIT 1")
    ∧ (∀ s : Select, (Query.select s).find_by c v
        = .select { s with where_clause := [s.mkFilter .eq false (c, v)] })
    ∧ (∀ s : Select,
        ({ s with where_clause := [s.mkFilter .eq false (c, v)] } : Select).limit = s.limit)
    ∧ Option.map Query.to_sql
          (Model.find_by ⟨"users", "id", "user_id"⟩ ("email") (.text "test@test.com"))
        = some (some ("SELECT * FROM \"users\" WHERE \"users\".\"email\" = $1 LIMIT 1")) := by
  refine ⟨?_, ?_, ?_, fun s => rfl, rfl⟩
  · simp [Model.find_by, Model.all, Query.selectTable, Query.find_by, Query.filter,
      Select.filter_and, Select.mkFilter, Query.take_one, Select.setLimit]
  · have hl : Select.limitSql { Select.new m.table_name ("id") with
          where_clause := [(Select.new m.table_name ("id")).mkFilter .eq false (c, v)],
          limit := some 1 }
        ++ Select.offsetSql { Select.new m.table_name ("id") with
            where_clause := [(Select.new m.table_name ("id")).mkFilter .eq false (c, v)],
            limit := some 1 }
      = " LIMIT 1" := rfl
    refine ⟨"SELECT "
        ++ Columns.to_sql (Select.columns { Select.new m.table_name ("id") with
            where_clause := [(Select.new m.table_name ("id")).mkFilter .eq false (c, v)],
            limit := some 1 })
        ++ " FROM \""
        ++ escape (Select.table_name { Select.new m.table_name ("id") with
            where_clause := [(Select.new m.table_name ("id")).mkFilter .eq false (c, v)],
            limit := some 1 })
        ++ "\""
        ++ Select.joinsSql { Select.new m.table_name ("id") with
            where_clause := [(Select.new m.table_name ("id")).mkFilter .eq false (c, v)],
            limit := some 1 }
        ++ Select.whereSql { Select.new m.table_name ("id") with
            where_clause := [(Select.new m.table_name ("id")).mkFilter .eq false (c, v)],
            limit := some 1 }
        ++ Select.orderSql { Select.new m.table_name ("id") with
            where_clause := [(Select.new m.table_name ("id")).mkFilter .eq false (c, v)],
            limit := some 1 }, ?_⟩
    simp only [Select.to_sql]
    rw [String.append_assoc, hl]
  · intro s
    simp [Query.find_by, Query.filter, Select.filter_and, Select.mkFilter]

end Rum
